import Mathlib

/-!
# Verification of `src/visor/readable.go` (SunCoin)

A shallow embedding of the "readable format" boundary of the SunCoin visor
package: the one-way readable mappers, the transaction JSON codec, the
transaction status constructors and the blockchain-metadata snapshot, as
implemented in `src/src/visor/readable.go`.

External collaborators (the `cipher` and `coin` packages of the upstream
skycoin dependency: hashes, signatures, checksummed addresses, structural
transaction verification) are not part of this repository's source tree;
they are modelled from the specification's collaborator contracts, as noted
on each such definition.
-/

namespace Readable

/-! ## Modelled external primitives: fixed-length hex -/

/-- Modelled from the spec: lowercase hex digit for a value below 16
(part of the external fixed-length hex collaborator contract). -/
def hexDigitChar (n : Nat) : Char :=
  if n < 10 then Char.ofNat (48 + n) else Char.ofNat (87 + n)

/-- Modelled from the spec: one byte rendered as two lowercase hex digits. -/
def byteToHexChars (b : Nat) : List Char :=
  [hexDigitChar (b / 16 % 16), hexDigitChar (b % 16)]

/-- Modelled from the spec: a byte sequence rendered as lowercase hex text. -/
def bytesToHex (bs : List Nat) : String :=
  ⟨bs.flatMap byteToHexChars⟩

/-- Modelled from the spec: value of one hex digit, `none` when the
character is not a lowercase hex digit. -/
def hexDigitVal (c : Char) : Option Nat :=
  if 48 ≤ c.toNat ∧ c.toNat ≤ 57 then some (c.toNat - 48)
  else if 97 ≤ c.toNat ∧ c.toNat ≤ 102 then some (c.toNat - 87)
  else none

/-- Modelled from the spec: decode a hex character sequence, two digits per
byte; fails on a non-hex character or an odd number of digits. -/
def hexPairsToBytes : List Char → Option (List Nat)
  | [] => some []
  | [_] => none
  | c1 :: c2 :: rest =>
    match hexDigitVal c1, hexDigitVal c2, hexPairsToBytes rest with
    | some hi, some lo, some bs => some ((16 * hi + lo) :: bs)
    | _, _, _ => none

/-- Modelled from the spec: decode a hex string into bytes. -/
def hexToBytes (s : String) : Option (List Nat) :=
  hexPairsToBytes s.data

/-! ## Modelled external types: signatures, hashes, addresses -/

/-- Modelled from the spec: `cipher.Sig` (a fixed 65-byte signature value;
the scheme's byte content is an external black box). -/
structure Sig where
  bytes : List Nat
deriving DecidableEq

/-- Modelled from the spec: `Sig.Hex` renders a signature as fixed-length
lowercase hex. -/
def Sig.Hex (s : Sig) : String := bytesToHex s.bytes

/-- Modelled from the spec: `coin.SigFromHex` decodes fixed-length hex into a
signature; fails (`none`) on non-hex characters or a wrong length. -/
def SigFromHex (s : String) : Option Sig :=
  match hexToBytes s with
  | some bs => if bs.length = 65 then some ⟨bs⟩ else none
  | none => none

/-- Modelled from the spec: `cipher.SHA256` (a fixed 32-byte hash value). -/
structure SHA256 where
  bytes : List Nat
deriving DecidableEq

/-- The Go zero value of a 32-byte hash: all zero bytes. -/
def SHA256.zero : SHA256 := ⟨List.replicate 32 0⟩

/-- Modelled from the spec: `SHA256.Hex` renders a hash as fixed-length
lowercase hex. -/
def SHA256.Hex (h : SHA256) : String := bytesToHex h.bytes

/-- Modelled from the spec: decode fixed-length hex into a hash; fails
(`none`) on non-hex characters or a wrong length. -/
def SHA256FromHex (s : String) : Option SHA256 :=
  match hexToBytes s with
  | some bs => if bs.length = 32 then some ⟨bs⟩ else none
  | none => none

/-- Modelled from the spec: `cipher.Address` (opaque address payload bytes).
The checksummed text codec below depends only on round-trip and
pass/fail behavior, not on the concrete base58 alphabet, so the payload is
rendered in hex with an appended checksum byte. -/
structure Address where
  bytes : List Nat
deriving DecidableEq

/-- Modelled from the spec: the checksum of an address payload (the real
scheme's checksum is an external black box; modelled as a byte sum). -/
def addressChecksum (bs : List Nat) : Nat :=
  bs.foldl (fun a b => a + b) 0 % 256

/-- Modelled from the spec: `Address.String`, the checksummed text form of an
address: payload bytes followed by the checksum byte. -/
def Address.String (a : Address) : String :=
  bytesToHex (a.bytes ++ [addressChecksum a.bytes])

/-- Modelled from the spec: `cipher.DecodeBase58Address` validates and decodes
the checksummed text form; rejects non-decodable text, an empty payload, or a
checksum mismatch. -/
def DecodeBase58Address (s : String) : Except String Address :=
  match hexToBytes s with
  | none => .error "Invalid address"
  | some bs =>
    match bs.getLast? with
    | none => .error "Invalid address length"
    | some ck =>
      if addressChecksum bs.dropLast = ck then .ok ⟨bs.dropLast⟩
      else .error "Invalid checksum"

/-! ## Modelled external types: transactions -/

/-- Modelled from the spec: `coin.TransactionOutput` — one payment leg:
destination address, coin amount, hour amount. -/
structure TransactionOutput where
  Address : Address
  Coins : Nat
  Hours : Nat
deriving DecidableEq

/-- Modelled from the spec: `coin.Transaction` — length (byte size of the
canonical encoding), type tag, inner (pre-signature) hash, ordered
signatures, ordered input references, ordered outputs. The source's `Type`
field is named `Type_` because `Type` is reserved in Lean. -/
structure Transaction where
  Length : Nat
  Type_ : Nat
  InnerHash : SHA256
  Sigs : List Sig
  In : List SHA256
  Out : List TransactionOutput
deriving DecidableEq

/-- The Go zero value `coin.Transaction\x7b\x7d`: zero numeric fields, zero
hash, empty lists. -/
def Transaction.empty : Transaction :=
  { Length := 0, Type_ := 0, InnerHash := SHA256.zero,
    Sigs := [], In := [], Out := [] }

/-- Modelled from the spec: the canonical byte encoding of one output
(address payload, then 8-byte little-endian coins and hours). -/
def encodeOutput (o : TransactionOutput) : List Nat :=
  o.Address.bytes
    ++ (List.range 8).map (fun i => o.Coins / 256 ^ i % 256)
    ++ (List.range 8).map (fun i => o.Hours / 256 ^ i % 256)

/-- Modelled from the spec: the canonical byte encoding of a transaction,
a deterministic function of its content. -/
def encodeTransaction (t : Transaction) : List Nat :=
  [t.Type_] ++ t.InnerHash.bytes
    ++ t.Sigs.flatMap Sig.bytes
    ++ t.In.flatMap SHA256.bytes
    ++ t.Out.flatMap encodeOutput

/-- Modelled from the spec: `Transaction.Size`, the byte size of the
canonical encoding. -/
def Transaction.Size (t : Transaction) : Nat :=
  (encodeTransaction t).length

/-- Modelled from the spec: `Transaction.Hash`, the content hash — a
deterministic fixed-size digest of the canonical encoding (the real SHA-256
is an external primitive; modelled as a 32-byte fold of the encoding). -/
def Transaction.Hash (t : Transaction) : SHA256 :=
  ⟨(List.range 32).map fun i =>
    (encodeTransaction t).foldl (fun a b => (a * 33 + b + 1) % 256) i⟩

/-- Modelled from the spec: `coin.Transaction.Verify`, the external
structural verification — non-empty inputs and outputs, equal input and
signature counts, no duplicate inputs. Returns `none` on success and
`some reason` on failure, mirroring Go's `error` return. Cryptographic
signature validity is part of the external black box and is not modelled;
the claims here depend only on the structural conditions. -/
def Transaction.Verify (t : Transaction) : Option String :=
  if t.In.length = 0 then some "No inputs"
  else if t.Out.length = 0 then some "No outputs"
  else if t.In.length ≠ t.Sigs.length then some "Input/signature count mismatch"
  else if t.In.Nodup then none
  else some "Duplicate spend"

/-- Models a Go call that either returns a value or aborts the process via
`log.Panic`: `fatal` is the process abort, `ok` the normal return. -/
inductive GoResult (α : Type) where
  | fatal (msg : String)
  | ok (val : α)
deriving DecidableEq

/-! ## Transaction status (lines 38–79 of readable.go) -/

/-- `TransactionStatus` from readable.go: three flags and a height. -/
structure TransactionStatus where
  Unconfirmed : Bool
  Unknown : Bool
  Confirmed : Bool
  Height : Nat
deriving DecidableEq

/-- `NewUnconfirmedTransactionStatus` from readable.go. -/
def NewUnconfirmedTransactionStatus : TransactionStatus :=
  { Unconfirmed := true, Unknown := false, Confirmed := false, Height := 0 }

/-- `NewUnknownTransactionStatus` from readable.go. -/
def NewUnknownTransactionStatus : TransactionStatus :=
  { Unconfirmed := false, Unknown := true, Confirmed := false, Height := 0 }

/-- `NewConfirmedTransactionStatus` from readable.go: aborts via
`log.Panic("Invalid confirmed transaction height")` when the height is 0,
otherwise returns a status with only the confirmed flag set. -/
def NewConfirmedTransactionStatus (height : Nat) : GoResult TransactionStatus :=
  if height = 0 then .fatal "Invalid confirmed transaction height"
  else .ok { Unconfirmed := false, Unknown := false, Confirmed := true,
             Height := height }

/-! ## Readable mappers (one-way, lines 96–225 of readable.go) -/

/-- `ReadableTransactionOutput` from readable.go. -/
structure ReadableTransactionOutput where
  Address : String
  Coins : Nat
  Hours : Nat
deriving DecidableEq

/-- `NewReadableTransactionOutput` from readable.go: address as checksummed
text, amounts copied verbatim. -/
def NewReadableTransactionOutput (t : TransactionOutput) : ReadableTransactionOutput :=
  { Address := t.Address.String, Coins := t.Coins, Hours := t.Hours }

/-- `ReadableTransaction` from readable.go. The source's `Type` field is
named `Type_` because `Type` is reserved in Lean. -/
structure ReadableTransaction where
  Length : Nat
  Type_ : Nat
  Hash : String
  InnerHash : String
  Sigs : List String
  In : List String
  Out : List ReadableTransactionOutput
deriving DecidableEq

/-- `NewReadableTransaction` from readable.go: signatures and input
references rendered as hex in order (the source's `make`+indexed-`for`
loops are embedded as `List.map`), outputs via the output mapper, numeric
fields copied, and the display hash derived from content. -/
def NewReadableTransaction (t : Transaction) : ReadableTransaction :=
  { Length := t.Length
    Type_ := t.Type_
    Hash := (Transaction.Hash t).Hex
    InnerHash := t.InnerHash.Hex
    Sigs := t.Sigs.map Sig.Hex
    In := t.In.map SHA256.Hex
    Out := t.Out.map NewReadableTransactionOutput }

/-- Modelled from the spec: `coin.BlockHeader` (identity/metadata of a
block; the chain structures are external collaborators). -/
structure BlockHeader where
  Version : Nat
  Time : Nat
  BkSeq : Nat
  Fee : Nat
  PrevHash : SHA256
  BodyHash : SHA256
deriving DecidableEq

/-- `ReadableBlockHeader` from readable.go. -/
structure ReadableBlockHeader where
  Version : Nat
  Time : Nat
  BkSeq : Nat
  Fee : Nat
  PrevHash : String
  BodyHash : String
deriving DecidableEq

/-- `NewReadableBlockHeader` from readable.go. -/
def NewReadableBlockHeader (b : BlockHeader) : ReadableBlockHeader :=
  { Version := b.Version, Time := b.Time, BkSeq := b.BkSeq, Fee := b.Fee,
    PrevHash := b.PrevHash.Hex, BodyHash := b.BodyHash.Hex }

/-! ## Blockchain metadata snapshot (lines 13–29 of readable.go) -/

/-- Modelled from the spec: one unspent output recorded in the unspent set
(`coin.UxOut` is external; only the set's entry count is read here). -/
structure UxOut where
  Address : Address
  Coins : Nat
  Hours : Nat
deriving DecidableEq

/-- Modelled from the spec: the most recent block, as far as the snapshot
reads it — its header (`v.Blockchain.Head().Head`). -/
structure Block where
  Head : BlockHeader
deriving DecidableEq

/-- Modelled from the spec: the chain collaborator as read by the snapshot:
current head block and the unspent-output pool entries. -/
structure Blockchain where
  Head : Block
  UnspentPool : List UxOut
deriving DecidableEq

/-- Modelled from the spec: the unconfirmed-transaction pool collaborator:
its known unconfirmed transactions. -/
structure UnconfirmedTxnPool where
  Txns : List Transaction
deriving DecidableEq

/-- Modelled from the spec: the `Visor` aggregate holding the chain and the
unconfirmed pool (defined outside src/; only these two fields are read). -/
structure Visor where
  Blockchain : Blockchain
  Unconfirmed : UnconfirmedTxnPool
deriving DecidableEq

/-- `BlockchainMetadata` from readable.go. -/
structure BlockchainMetadata where
  Head : ReadableBlockHeader
  Unspents : Nat
  Unconfirmed : Nat
deriving DecidableEq

/-- `NewBlockchainMetadata` from readable.go: map the head header, count the
unspent pool, count the unconfirmed pool. -/
def NewBlockchainMetadata (v : Visor) : BlockchainMetadata :=
  { Head := NewReadableBlockHeader v.Blockchain.Head.Head
    Unspents := v.Blockchain.UnspentPool.length
    Unconfirmed := v.Unconfirmed.Txns.length }

/-! ## Transactions to and from JSON (lines 227–326 of readable.go) -/

/-- `TransactionOutputJSON` from readable.go. -/
structure TransactionOutputJSON where
  Address : String
  Coins : Nat
  Hours : Nat
deriving DecidableEq

/-- `NewTransactionOutputJSON` from readable.go. -/
def NewTransactionOutputJSON (ux : TransactionOutput) : TransactionOutputJSON :=
  { Address := ux.Address.String, Coins := ux.Coins, Hours := ux.Hours }

/-- `TransactionOutputFromJSON` from readable.go: decode the address via the
checksummed address codec (failure yields the source's literal
"Adress decode fail" error, with no index information), copy the amounts
verbatim. -/
def TransactionOutputFromJSON (i : TransactionOutputJSON) :
    Except String TransactionOutput :=
  match DecodeBase58Address i.Address with
  | .error _ => .error "Adress decode fail"
  | .ok addr => .ok { Address := addr, Coins := i.Coins, Hours := i.Hours }

/-- `TransactionJSON` from readable.go: the wire document. -/
structure TransactionJSON where
  Hash : String
  InnerHash : String
  Sigs : List String
  In : List String
  Out : List TransactionOutputJSON
deriving DecidableEq

/-- The Go zero value of `TransactionJSON`: empty strings and empty lists.
This is what `json.Unmarshal` leaves behind when it cannot write to its
destination (see `TransactionFromJSON`). -/
def TransactionJSON.zero : TransactionJSON :=
  { Hash := "", InnerHash := "", Sigs := [], In := [], Out := [] }

/-- Join rendered elements with commas, as in a JSON array body. -/
def joinComma : List String → String
  | [] => ""
  | [x] => x
  | x :: xs => x ++ "," ++ joinComma xs

/-- A JSON string literal around already-hex/ascii content. -/
def quoteJSON (s : String) : String := "\"" ++ s ++ "\""

/-- Modelled from the spec: `json.Marshal` of one output document entry
(the standard-library marshaller is external; the spec makes the exact
formatting cosmetic and not part of the contract). -/
def marshalOutputJSON (o : TransactionOutputJSON) : String :=
  "\x7b\"address\":" ++ quoteJSON o.Address
    ++ ",\"coins\":" ++ toString o.Coins
    ++ ",\"hours\":" ++ toString o.Hours ++ "\x7d"

/-- Modelled from the spec: `json.MarshalIndent` of the transaction document
(formatting is cosmetic per the spec; indentation is not reproduced). -/
def marshalTransactionJSON (d : TransactionJSON) : String :=
  "\x7b\"hash\":" ++ quoteJSON d.Hash
    ++ ",\"inner_hash\":" ++ quoteJSON d.InnerHash
    ++ ",\"sigs\":[" ++ joinComma (d.Sigs.map quoteJSON)
    ++ "],\"in\":[" ++ joinComma (d.In.map quoteJSON)
    ++ "],\"out\":[" ++ joinComma (d.Out.map marshalOutputJSON)
    ++ "]\x7d"

/-- The document built by `TransactionToJSON` (lines 268–280): signatures
and input references rendered as hex, outputs via `NewTransactionOutputJSON`,
all in source order. The source never assigns `o.Hash` or `o.InnerHash`, so
both stay at their zero value, the empty string. -/
def transactionDocOf (tx : Transaction) : TransactionJSON :=
  { Hash := ""
    InnerHash := ""
    Sigs := tx.Sigs.map Sig.Hex
    In := tx.In.map SHA256.Hex
    Out := tx.Out.map NewTransactionOutputJSON }

/-- `TransactionToJSON` from readable.go. The Go function's return type is
plain `string` — it has no error return at all; when `tx.Verify()` fails it
aborts the process via `log.Panic("Transaction Invalid: Cannot serialize to
JSON")`, modelled as `GoResult.fatal`. (The subsequent `json.MarshalIndent`
error branch is unreachable for this document shape and is likewise a
`log.Panic`; it is not modelled.) -/
def TransactionToJSON (tx : Transaction) : GoResult String :=
  match Transaction.Verify tx with
  | some _ => .fatal "Transaction Invalid: Cannot serialize to JSON"
  | none => .ok (marshalTransactionJSON (transactionDocOf tx))

/-- Outcome of `TransactionFromJSON`: a runtime panic (out-of-range slice
index), a returned non-nil error, or a normal `(tx, nil)` return. -/
inductive DecodeOutcome where
  | fatal (msg : String)
  | err (msg : String)
  | ok (t : Transaction)
deriving DecidableEq

/-- First early exit of the source's signature loop (lines 305–311), read
with the undeclared identifiers `o` and `txIn` resolved to the unmarshal
destination `TxIn` (the only candidate in scope): for each index `i` below
`len(TxIn.Sigs)`, the loop reads `TxIn.In[i]` — an out-of-range slice access
(runtime panic) when `i ≥ len(TxIn.In)` — and parses it with `SigFromHex`,
returning the error "invalid signature" (no index) on failure. -/
def sigLoopExit (inField : List String) (i : Nat) : Option DecodeOutcome :=
  match inField[i]? with
  | none => some (.fatal "runtime error: index out of range")
  | some s =>
    match SigFromHex s with
    | none => some (.err "invalid signature")
    | some _ => none

/-- Second early exit, the source's input loop (lines 313–319): for each
index `i` below `len(TxIn.In)` it again parses `TxIn.In[i]` with
`SigFromHex` — the input field, as a signature — and writes the result into
`tx.Sigs[i]`, a slice of length `len(TxIn.Sigs)`: out of range (runtime
panic) when `i ≥ len(TxIn.Sigs)`. The input-reference list `tx.In` is never
filled and the outputs are never decoded at all. -/
def inLoopExit (sigsLen : Nat) (inField : List String) (i : Nat) :
    Option DecodeOutcome :=
  match inField[i]? with
  | none => none
  | some s =>
    match SigFromHex s with
    | none => some (.err "invalid signature")
    | some _ => if i < sigsLen then none else some (.fatal "runtime error: index out of range")

/-- Runs loop indices `0, 1, …, n-1` in order and returns the first early
exit, if any. -/
def firstLoopExit (f : Nat → Option DecodeOutcome) (n : Nat) : Option DecodeOutcome :=
  (List.range n).findSome? f

/-- The body of `TransactionFromJSON` after unmarshalling (lines 299–324),
applied to whatever document `TxIn` holds: run the two loops; if neither
exits early, fall through to the final statement — which is literally
`return coin.Transaction\x7b\x7d, nil`: the locally built `tx` (whose
`tx.Length = tx.Size()` and `tx.Type = 0` assignments, and everything the
loops wrote) is discarded, and the zero-value transaction is returned with a
nil error. -/
def decodeDoc (txIn : TransactionJSON) : DecodeOutcome :=
  match firstLoopExit (sigLoopExit txIn.In) txIn.Sigs.length with
  | some r => r
  | none =>
    match firstLoopExit (inLoopExit txIn.Sigs.length txIn.In) txIn.In.length with
    | some r => r
    | none => .ok Transaction.empty

/-- `TransactionFromJSON` from readable.go (lines 290–325). The source calls
`json.Unmarshal([]byte(str), TxIn)` with a non-pointer destination: by Go's
`encoding/json` semantics this never writes to `TxIn` and always returns an
`InvalidUnmarshalError`, for every input string, well-formed or not. The
error branch then evaluates `errors.New("cannot deserialize")` and discards
it — nothing is returned — so execution continues with `TxIn` still at its
zero value and runs the decode body on the empty document. The function
therefore returns `(coin.Transaction\x7b\x7d, nil)` for every input
string. -/
def TransactionFromJSON (str : String) : DecodeOutcome :=
  decodeDoc TransactionJSON.zero

/-! ## Concrete values used by the theorems -/

/-- A concrete address payload. -/
def exAddr : Address := ⟨[1, 2, 3]⟩

/-- A concrete output: 100 coins, 5 hours, to `exAddr`. -/
def exOut : TransactionOutput := { Address := exAddr, Coins := 100, Hours := 5 }

/-- A concrete 65-byte signature. -/
def exSig : Sig := ⟨List.replicate 65 1⟩

/-- A concrete 32-byte input reference. -/
def exInHash : SHA256 := ⟨List.replicate 32 2⟩

/-- A structurally valid transaction: one input, one signature, one output. -/
def exTx : Transaction :=
  { Length := 0, Type_ := 0, InnerHash := SHA256.zero,
    Sigs := [exSig], In := [exInHash], Out := [exOut] }

/-- A transaction with zero inputs: fails structural verification. -/
def txNoInputs : Transaction :=
  { Length := 0, Type_ := 0, InnerHash := SHA256.zero,
    Sigs := [], In := [], Out := [exOut] }

/-- A transaction with one input and no signature: fails structural
verification by count mismatch. -/
def txMismatch : Transaction :=
  { Length := 0, Type_ := 0, InnerHash := SHA256.zero,
    Sigs := [], In := [exInHash], Out := [exOut] }

/-- A wire document whose signature entry `"zz"` is not hex, while its input
entry is a perfectly valid 32-byte input-reference hex string. -/
def docBadSig : TransactionJSON :=
  { Hash := "", InnerHash := "", Sigs := ["zz"],
    In := [bytesToHex (List.replicate 32 0)], Out := [] }

/-- A wire document whose only output carries the non-decodable address
`"zz"`. -/
def docBadAddr : TransactionJSON :=
  { Hash := "", InnerHash := "", Sigs := [], In := [],
    Out := [{ Address := "zz", Coins := 7, Hours := 9 }] }

/-- A wire document with zero signatures but one input entry (here written
as 65 bytes of hex so that, read as a signature, it parses). -/
def docMismatch : TransactionJSON :=
  { Hash := "", InnerHash := "", Sigs := [],
    In := [bytesToHex (List.replicate 65 3)], Out := [] }

/-! ## Claim theorems -/

/-- C1: the round-trip contract fails on the code. `exTx` is structurally
valid and `TransactionToJSON` encodes it, but `TransactionFromJSON` of that
document returns the zero-value transaction (`return coin.Transaction\x7b\x7d,
nil` is the source's unconditional final statement, and the non-pointer
unmarshal never populates the document), which differs from `exTx` in its
signatures, inputs and outputs. -/
theorem roundtrip_decodes_to_zero_transaction :
    Transaction.Verify exTx = none ∧
    TransactionToJSON exTx = GoResult.ok (marshalTransactionJSON (transactionDocOf exTx)) ∧
    TransactionFromJSON (marshalTransactionJSON (transactionDocOf exTx)) =
      DecodeOutcome.ok Transaction.empty ∧
    Transaction.empty ≠ exTx := by
  refine ⟨by decide, rfl, rfl, by decide⟩

/-- C2 (counterexample): encoding the zero-input transaction does not return
a recoverable `VerificationFailed` error result — the function's Go type has
no error return at all, and on verification failure it aborts the process
via `log.Panic`, modelled as the `fatal` outcome. -/
theorem encode_unverified_aborts_cex :
    TransactionToJSON txNoInputs =
      GoResult.fatal "Transaction Invalid: Cannot serialize to JSON" := by
  decide

/-- C2 (amended): for every transaction failing external structural
verification, `TransactionToJSON` never produces a document: it fails
closed, but by aborting the process (`log.Panic`), not by returning a
recoverable error result. -/
theorem encode_unverified_aborts (tx : Transaction)
    (h : Transaction.Verify tx ≠ none) :
    TransactionToJSON tx =
      GoResult.fatal "Transaction Invalid: Cannot serialize to JSON" := by
  unfold TransactionToJSON
  cases hv : Transaction.Verify tx with
  | none => exact absurd hv h
  | some e => rfl

/-- C2 (witness): the count-mismatched transaction fails verification, and
encoding it aborts. -/
theorem encode_unverified_aborts_witness :
    Transaction.Verify txMismatch ≠ none ∧
    TransactionToJSON txMismatch =
      GoResult.fatal "Transaction Invalid: Cannot serialize to JSON" :=
  ⟨by decide, encode_unverified_aborts txMismatch (by decide)⟩

/-- C3: decoding a document whose signature entry is not hex does not fail
with `InvalidSignatureEncoding` at its index — the decode returns success
with the zero-value transaction (the non-pointer unmarshal never populates
the document). Even read charitably as if the document were populated, the
decode body never looks at the signature field: both loops parse the input
field as signatures, so this document fails with the generic, index-free
"invalid signature" — triggered by its perfectly valid input entry, whose
32 bytes are the wrong length for a signature. -/
theorem decode_never_flags_bad_signature_hex :
    TransactionFromJSON (marshalTransactionJSON docBadSig) =
      DecodeOutcome.ok Transaction.empty ∧
    decodeDoc docBadSig = DecodeOutcome.err "invalid signature" := by
  refine ⟨rfl, by decide⟩

/-- C4: an output entry with a non-decodable address does not make the whole
decode fail with `InvalidAddressEncoding` at its index: `TransactionFromJSON`
returns success with the zero-value transaction, and even read charitably on
a populated document the decode body never decodes outputs at all.
`TransactionOutputFromJSON` itself does reject the bad address, but with the
index-free literal "Adress decode fail", and it is never invoked by the
transaction decode. -/
theorem decode_never_flags_bad_address :
    TransactionFromJSON (marshalTransactionJSON docBadAddr) =
      DecodeOutcome.ok Transaction.empty ∧
    decodeDoc docBadAddr = DecodeOutcome.ok Transaction.empty ∧
    TransactionOutputFromJSON { Address := "zz", Coins := 7, Hours := 9 } =
      Except.error "Adress decode fail" := by
  refine ⟨rfl, by decide, rfl⟩

/-- C5: a document with zero signatures and one input does not fail with
`InputSignatureCountMismatch`: no such check exists in the source.
`TransactionFromJSON` returns success with the zero-value transaction; read
charitably on a populated document, the second loop writes `tx.Sigs[0]` in a
zero-length slice — a runtime panic, not the claimed error. -/
theorem decode_ignores_count_mismatch :
    TransactionFromJSON (marshalTransactionJSON docMismatch) =
      DecodeOutcome.ok Transaction.empty ∧
    decodeDoc docMismatch =
      DecodeOutcome.fatal "runtime error: index out of range" := by
  refine ⟨rfl, by decide⟩

/-- C6: a syntactically malformed input does not fail with
`MalformedDocument`: the unmarshal error is checked but the constructed
"cannot deserialize" error is discarded, and the function returns success
with the zero-value transaction — indeed it does so for every input
string. -/
theorem decode_swallows_malformed_document :
    TransactionFromJSON "this is not a document" =
      DecodeOutcome.ok Transaction.empty ∧
    ∀ s : String, TransactionFromJSON s = DecodeOutcome.ok Transaction.empty :=
  ⟨rfl, fun _ => rfl⟩

/-- C7 (counterexample): constructing a confirmed status with height 0 is
not rejected as a recoverable error result: the constructor aborts the
process via `log.Panic("Invalid confirmed transaction height")`. -/
theorem confirmed_zero_aborts_cex :
    NewConfirmedTransactionStatus 0 =
      GoResult.fatal "Invalid confirmed transaction height" := by
  decide

/-- C7 (amended): the unconfirmed and unknown constructors yield height 0
with exactly their own flag set; the confirmed constructor at any height
h ≥ 1 yields exactly the confirmed flag set with height h; and at height 0
it is rejected at construction by aborting the process (`log.Panic`) — a
fatal abort, never a silently invalid confirmed status, but also not a
recoverable error result. -/
theorem status_constructors_amended (h : Nat) (hp : 1 ≤ h) :
    NewUnconfirmedTransactionStatus = ⟨true, false, false, 0⟩ ∧
    NewUnknownTransactionStatus = ⟨false, true, false, 0⟩ ∧
    NewConfirmedTransactionStatus h = GoResult.ok ⟨false, false, true, h⟩ ∧
    NewConfirmedTransactionStatus 0 =
      GoResult.fatal "Invalid confirmed transaction height" := by
  refine ⟨rfl, rfl, ?_, rfl⟩
  have hz : h ≠ 0 := by omega
  simp [NewConfirmedTransactionStatus, hz]

/-- C7 (witness): the confirmed constructor at height 2. -/
theorem status_constructors_amended_witness :
    NewConfirmedTransactionStatus 2 = GoResult.ok ⟨false, false, true, 2⟩ :=
  (status_constructors_amended 2 (by decide)).2.2.1

/-- C8: the readable mapper preserves lengths and order: signatures and
input references are rendered elementwise as hex, outputs elementwise via
the output mapper (address as checksummed text, coins and hours verbatim),
and the numeric `Length` and `Type` fields are copied verbatim. -/
theorem readable_transaction_preserves_fields (t : Transaction) :
    (NewReadableTransaction t).Length = t.Length ∧
    (NewReadableTransaction t).Type_ = t.Type_ ∧
    (NewReadableTransaction t).Sigs.length = t.Sigs.length ∧
    (NewReadableTransaction t).In.length = t.In.length ∧
    (NewReadableTransaction t).Out.length = t.Out.length ∧
    (∀ i : Nat, (NewReadableTransaction t).Sigs[i]? = (t.Sigs[i]?).map Sig.Hex) ∧
    (∀ i : Nat, (NewReadableTransaction t).In[i]? = (t.In[i]?).map SHA256.Hex) ∧
    (∀ i : Nat, (NewReadableTransaction t).Out[i]? =
      (t.Out[i]?).map NewReadableTransactionOutput) ∧
    (∀ o : TransactionOutput, NewReadableTransactionOutput o =
      ⟨o.Address.String, o.Coins, o.Hours⟩) := by
  refine ⟨rfl, rfl, ?_, ?_, ?_, ?_, ?_, ?_, fun o => rfl⟩ <;>
    simp [NewReadableTransaction, List.getElem?_map]

/-- C9: the metadata snapshot is a pure function of the three readings it
takes (head header, unspent-pool size, unconfirmed-pool size): two calls
over states agreeing on those readings return identical results, so with no
intervening mutation repeated calls always agree. -/
theorem metadata_snapshot_deterministic (v v' : Visor)
    (hh : v.Blockchain.Head.Head = v'.Blockchain.Head.Head)
    (hu : v.Blockchain.UnspentPool.length = v'.Blockchain.UnspentPool.length)
    (hc : v.Unconfirmed.Txns.length = v'.Unconfirmed.Txns.length) :
    NewBlockchainMetadata v = NewBlockchainMetadata v' := by
  unfold NewBlockchainMetadata
  rw [hh, hu, hc]

/-- A concrete block header for the snapshot witness. -/
def exHeader : BlockHeader :=
  { Version := 1, Time := 10, BkSeq := 5, Fee := 2,
    PrevHash := SHA256.zero, BodyHash := SHA256.zero }

/-- A concrete visor state. -/
def exVisor1 : Visor :=
  { Blockchain := { Head := ⟨exHeader⟩, UnspentPool := [⟨exAddr, 1, 1⟩] },
    Unconfirmed := ⟨[]⟩ }

/-- A second visor state agreeing with the first on the three snapshot
readings but differing in unspent-pool content. -/
def exVisor2 : Visor :=
  { Blockchain := { Head := ⟨exHeader⟩, UnspentPool := [⟨exAddr, 9, 9⟩] },
    Unconfirmed := ⟨[]⟩ }

/-- C9 (witness): two concrete states agreeing on the snapshot readings. -/
theorem metadata_snapshot_deterministic_witness :
    NewBlockchainMetadata exVisor1 = NewBlockchainMetadata exVisor2 :=
  metadata_snapshot_deterministic exVisor1 exVisor2 (by decide) (by decide) (by decide)

/-- C10: the output-level JSON mapping is its own inverse: for any output
whose address round-trips through the checksummed text form, decoding the
encoded entry returns the output with address, coins and hours intact. -/
theorem output_json_roundtrip (o : TransactionOutput)
    (h : DecodeBase58Address o.Address.String = Except.ok o.Address) :
    TransactionOutputFromJSON (NewTransactionOutputJSON o) = Except.ok o := by
  simp [TransactionOutputFromJSON, NewTransactionOutputJSON, h]

/-- C10 (witness): the concrete output `exOut` round-trips. -/
theorem output_json_roundtrip_witness :
    DecodeBase58Address exOut.Address.String = Except.ok exOut.Address ∧
    TransactionOutputFromJSON (NewTransactionOutputJSON exOut) = Except.ok exOut :=
  ⟨rfl, output_json_roundtrip exOut rfl⟩

end Readable
